import Mathlib

/-!
Verification development for the Victron BLE Scanner Display firmware
(src/main.cpp).  The decoding pipeline is shallowly embedded: byte buffers
become functions from offsets to byte values, the packed C structs become
explicit little-endian field readers at the offsets the packed layout gives
them on the ESP32 target, the global display caches become an explicit state
record, and C float arithmetic is modelled as exact rational arithmetic.
The external esp_aes library (not part of this repository) is modelled from
the specification of AES-128 counter mode with an abstract block cipher.
-/

namespace Victron

/-- Read of a little-endian 16-bit field from two bytes (the packed structs of
main.cpp are laid out little-endian on the ESP32 target). -/
def le16 (lo hi : Nat) : Nat := lo + 256 * hi

/-- Reinterpretation of a 16-bit value as a signed int16_t. -/
def i16 (x : Nat) : Int := if x < 0x8000 then (x : Int) else (x : Int) - 0x10000

/-- Reinterpretation of a 32-bit value as a signed int32_t. -/
def i32 (x : Nat) : Int := if x < 0x80000000 then (x : Int) else (x : Int) - 0x100000000

/-- Conversion of a C int to size_t at a call site taking size_t (the
esp_aes_crypt_ctr length argument): negative values wrap modulo 2^32. -/
def sizeT (n : Int) : Nat := (n % (2 ^ 32 : Int)).toNat

/-- Global solarData display cache (main.cpp:152).  The C float fields are
modelled as exact rationals. -/
structure SolarData where
  valid : Bool
  batteryVoltage : ℚ
  batteryCurrent : ℚ
  todayYield : ℚ
  inputPower : Nat
  loadCurrent : ℚ
  chargeState : Nat
  errorCode : Nat
  rssi : Int
  deviceName : String
  deriving DecidableEq

/-- Global shuntData display cache (main.cpp:165). -/
structure ShuntData where
  valid : Bool
  batteryVoltage : ℚ
  batteryCurrent : ℚ
  soc : ℚ
  consumedAh : ℚ
  ttg : Nat
  rssi : Int
  deviceName : String
  deriving DecidableEq

/-- Global batterySenseData display cache (main.cpp:176). -/
structure BatterySenseData where
  valid : Bool
  batteryVoltage : ℚ
  temperature : ℚ
  rssi : Int
  deviceName : String
  deriving DecidableEq

/-- The mutable global state touched by the decoding pipeline: the three
per-device-kind reading caches and the packetReceived flag. -/
structure Caches where
  solar : SolarData
  shunt : ShuntData
  sense : BatterySenseData
  packetReceived : Bool
  deriving DecidableEq

/-- Zero-initialized globals (the `= {false}` initializers of main.cpp). -/
def initCaches : Caches :=
  { solar := { valid := false, batteryVoltage := 0, batteryCurrent := 0,
               todayYield := 0, inputPower := 0, loadCurrent := 0,
               chargeState := 0, errorCode := 0, rssi := 0, deviceName := "" }
    shunt := { valid := false, batteryVoltage := 0, batteryCurrent := 0,
               soc := 0, consumedAh := 0, ttg := 0, rssi := 0, deviceName := "" }
    sense := { valid := false, batteryVoltage := 0, temperature := 0,
               rssi := 0, deviceName := "" }
    packetReceived := false }

/-- chargeStateNames (main.cpp:191). -/
def chargeStateNames : List String :=
  ["  off", "   1?", "   2?", " bulk", "  abs", "float", "   6?", "equal"]

/-- processSolarCharger (main.cpp:293).  The decrypted buffer, cast in the C
code to victronSolarData, is modelled by the byte reader d; field offsets of
the packed struct: deviceState 0, errorCode 1, batteryVoltage 2-3,
batteryCurrent 4-5, todayYield 6-7, inputPower 8-9, outputCurrentLo 10,
outputCurrentHi 11.  The Serial log and the stateName formatting have no
effect on the modelled state. -/
def processSolarCharger (d : Nat → Nat) (rssi : Int) (deviceName : String)
    (g : Caches) : Caches :=
  -- byte unusedBits = solar->outputCurrentHi & 0xfe; if (unusedBits != 0xfe) return;
  let unusedBits := d 11 &&& 0xfe
  if unusedBits ≠ 0xfe then g
  else
    let outputCurrentInt := ((d 11 &&& 0x01) <<< 9) ||| d 10
    { g with solar :=
      { valid := true
        batteryVoltage := (i16 (le16 (d 2) (d 3)) : ℚ) * 0.01
        batteryCurrent := (i16 (le16 (d 4) (d 5)) : ℚ) * 0.1
        todayYield := (le16 (d 6) (d 7) : ℚ) * 0.01 * 1000
        inputPower := le16 (d 8) (d 9)
        chargeState := d 0
        errorCode := d 1
        rssi := rssi
        loadCurrent := (outputCurrentInt : ℚ) * 0.1
        deviceName := deviceName.take 31 } }

/-- processSmartShunt (main.cpp:327).  Offsets of victronBatteryMonitorData:
ttg 0-1, batteryVoltage 2-3, alarm 4-5, auxValue 6-7, packedData 8-14.
The local auxInput variable of the C code is unused there and is omitted.
The int32 sign extension `currentRaw |= 0xFFC00000` is modelled as the or
followed by reinterpretation as int32_t. -/
def processSmartShunt (d : Nat → Nat) (rssi : Int) (deviceName : String)
    (g : Caches) : Caches :=
  let currentRaw0 := ((d 8 >>> 2) ||| (d 9 <<< 6) ||| (d 10 <<< 14)) &&& 0x3FFFFF
  let currentRaw : Int :=
    if currentRaw0 &&& 0x200000 ≠ 0 then i32 (currentRaw0 ||| 0xFFC00000)
    else (currentRaw0 : Int)
  let socRaw := ((d 13 >>> 4) ||| (d 14 <<< 4)) &&& 0x3FF
  { g with shunt :=
    { g.shunt with
      valid := true
      batteryVoltage := (i16 (le16 (d 2) (d 3)) : ℚ) * 0.01
      ttg := le16 (d 0) (d 1)
      rssi := rssi
      batteryCurrent := (currentRaw : ℚ) * 0.001
      soc := if socRaw ≠ 0x3FF then (socRaw : ℚ) * 0.1 else g.shunt.soc
      deviceName := deviceName.take 31 } }

/-- processBatterySense (main.cpp:359).  Same packed layout as the battery
monitor record; both branches of the aux-input test perform the same
temperature conversion, kept as in the source. -/
def processBatterySense (d : Nat → Nat) (rssi : Int) (deviceName : String)
    (g : Caches) : Caches :=
  let auxInput := d 8 &&& 0x03
  { g with sense :=
    { valid := true
      batteryVoltage := (i16 (le16 (d 2) (d 3)) : ℚ) * 0.01
      rssi := rssi
      temperature :=
        if auxInput = 2 then (i16 (le16 (d 6) (d 7)) : ℚ) * 0.01 - 273.15
        else (i16 (le16 (d 6) (d 7)) : ℚ) * 0.01 - 273.15
      deviceName := deviceName.take 31 } }

/-- Modelled from the spec: a single keystream block of AES-128 in counter
mode.  The AES block cipher itself lives in the external esp_aes library
(ESP-IDF), not in this repository, so it is abstracted as a function E from
the 16-byte initial nonce_counter to, per keystream-block index, the 16
keystream bytes. -/
def ctrKeystreamByte (blocks : Nat → List Nat) (i : Nat) : Nat :=
  (blocks (i / 16)).getD (i % 16) 0

/-- Modelled from the spec: esp_aes_crypt_ctr of the external esp_aes library.
Counter mode XORs the input with the keystream; the call reads input[i] and
writes output[i] for every i < len, so it processes exactly len bytes and
needs no padding.  The list returned collects exactly the bytes written. -/
def esp_aes_crypt_ctr (blocks : Nat → List Nat) (len : Nat) (input : Nat → Nat) :
    List Nat :=
  (List.range len).map fun i => input i ^^^ ctrKeystreamByte blocks i

/-- nonce_counter construction (main.cpp:278-280): byte 0 is the low byte and
byte 1 the high byte of nonceDataCounter, bytes 2-15 are zero. -/
def nonce_counter (nonceDataCounter : Nat) : List Nat :=
  nonceDataCounter % 256 :: (nonceDataCounter >>> 8) % 256 :: List.replicate 14 0

/-- Size of the local `byte inputData[16]` buffer in decryptVictronData
(main.cpp:263). -/
def inputDataSize : Nat := 16

/-- Size of the local `byte outputData[16] = {0}` buffer in onResult
(main.cpp:512), the destination esp_aes_crypt_ctr writes to. -/
def outputDataSize : Nat := 16

/-- decryptVictronData (main.cpp:262).  E abstracts the AES-128 block cipher
keyed with the device key (see ctrKeystreamByte); setkeyOk models the status
of esp_aes_setkey; encData reads vicData->victronEncryptedData; stack models
the uninitialized tail of the 16-byte inputData stack buffer, read whenever
the cipher consumes bytes the copy loop `i < dataSize && i < 16` never wrote.
The C length parameter is an int that the esp_aes_crypt_ctr call implicitly
converts to size_t, hence the sizeT wrap. -/
def decryptVictronData (E : List Nat → Nat → List Nat) (setkeyOk : Bool)
    (encData : Nat → Nat) (stack : Nat → Nat) (nonceDataCounter : Nat)
    (dataSize : Int) : Option (List Nat) :=
  let inputData : Nat → Nat := fun i =>
    if (i : Int) < dataSize ∧ i < 16 then encData i else stack i
  if setkeyOk then
    some (esp_aes_crypt_ctr (E (nonce_counter nonceDataCounter)) (sizeT dataSize)
      inputData)
  else none

/-- The 32-byte manCharBuf stack buffer of onResult (main.cpp:465-470): the
first min(length, 31) manufacturer-data bytes are copied in, every other
offset still holds whatever was on the stack (residual). -/
def manCharBuf (manData : List Nat) (residual : Nat → Nat) (i : Nat) : Nat :=
  if i < min manData.length 31 then manData.getD i 0 else residual i

/-- vendorID field of the victronManufacturerData cast (offset 0-1). -/
def vendorID (buf : Nat → Nat) : Nat := le16 (buf 0) (buf 1)

/-- victronRecordType field (offset 6). -/
def victronRecordType (buf : Nat → Nat) : Nat := buf 6

/-- nonceDataCounter field (offset 7-8, little-endian). -/
def nonceDataCounterField (buf : Nat → Nat) : Nat := le16 (buf 7) (buf 8)

/-- encryptKeyMatch field (offset 9). -/
def encryptKeyMatch (buf : Nat → Nat) : Nat := buf 9

/-- victronEncryptedData field (offsets 10-30). -/
def victronEncryptedData (buf : Nat → Nat) (i : Nat) : Nat := buf (10 + i)

/-- Configured device kind (enum VictronDeviceType, main.cpp:113). -/
inductive VictronDeviceType where
  | solarCharger
  | smartShunt
  | batterySense
  deriving DecidableEq

/-- One entry of the victronDevices registry after setup() has converted the
hex strings: the 6 MAC bytes, the 16 key bytes and the configured kind. -/
structure VictronDevice where
  byteMacAddr : List Nat
  byteKey : List Nat
  deviceType : VictronDeviceType
  deriving DecidableEq

instance : Inhabited VictronDevice :=
  ⟨⟨List.replicate 6 0, List.replicate 16 0, .solarCharger⟩⟩

/-- The inner loop of findDeviceByMac (main.cpp:248): all 6 MAC bytes equal. -/
def macMatches (dev : VictronDevice) (mac : List Nat) : Bool :=
  (List.range 6).all fun j => mac.getD j 0 == dev.byteMacAddr.getD j 0

/-- findDeviceByMac (main.cpp:248): index of the first matching entry, none
standing for the C return value -1. -/
def findDeviceByMac (devices : List VictronDevice) (mac : List Nat) : Option Nat :=
  devices.findIdx? fun dev => macMatches dev mac

/-- MyAdvertisedDeviceCallbacks::onResult (main.cpp:461), the full
per-advertisement pipeline.  The MAC string parsing and the display-name
prefix stripping are presentation conversions modelled by passing the MAC
bytes and the resolved name directly; Serial logs and updateDisplay do not
touch the modelled state.  residual models the uninitialized bytes of
manCharBuf, stack the uninitialized tail of inputData inside
decryptVictronData. -/
def onResult (devices : List VictronDevice) (E : List Nat → Nat → List Nat)
    (setkeyOk : Bool) (haveManufacturerData : Bool) (manData : List Nat)
    (residual stack : Nat → Nat) (mac : List Nat) (advName : String)
    (rssi : Int) (g : Caches) : Caches :=
  if !haveManufacturerData then g else
  let manDataSize := min manData.length 31
  let buf := manCharBuf manData residual
  -- if (vicData->vendorID != 0x02e1) return;
  if vendorID buf ≠ 0x02E1 then g else
  match findDeviceByMac devices mac with
  | none => g        -- "[NEW DEVICE]" log, then return
  | some deviceIndex =>
    let dev := devices.getD deviceIndex default
    -- if (vicData->encryptKeyMatch != victronDevices[deviceIndex].byteKey[0]) return;
    if encryptKeyMatch buf ≠ dev.byteKey.getD 0 0 then g else
    let encrDataSize : Int := (manDataSize : Int) - 10
    match decryptVictronData E setkeyOk (victronEncryptedData buf) stack
        (nonceDataCounterField buf) encrDataSize with
    | none => g      -- "[DECRYPT FAIL]" log, then return
    | some out =>
      -- byte outputData[16] = {0}: reads beyond the bytes the cipher wrote give 0
      let d : Nat → Nat := fun i => out.getD i 0
      match dev.deviceType with
      | .solarCharger =>
        if victronRecordType buf = 0x01 then
          { processSolarCharger d rssi advName g with packetReceived := true }
        else g
      | .smartShunt =>
        if victronRecordType buf = 0x02 then
          { processSmartShunt d rssi advName g with packetReceived := true }
        else g
      | .batterySense =>
        { processBatterySense d rssi advName g with packetReceived := true }

/-- Spec 4.4 wording: the upper 7 bits of the loadCurrentHighWithFlags byte. -/
def upper7 (b : Nat) : Nat := b >>> 1

/-- Spec 4.4 wording: the 7-byte packed region of the battery-monitor record
(buffer offsets 8-14) read as a little-endian 56-bit integer. -/
def packedLE56 (d : Nat → Nat) : Nat :=
  d 8 + 2 ^ 8 * d 9 + 2 ^ 16 * d 10 + 2 ^ 24 * d 11 + 2 ^ 32 * d 12 +
    2 ^ 40 * d 13 + 2 ^ 48 * d 14

/-- Spec wording for claim C8: the 22-bit field occupying bits 2 through 23 of
the packed region. -/
def specCurrentRaw (d : Nat → Nat) : Nat := packedLE56 d / 2 ^ 2 % 2 ^ 22

/-- Sign extension of a 22-bit field from its bit 21. -/
def signExtend22 (v : Nat) : Int :=
  if 2 ^ 21 ≤ v % 2 ^ 22 then (v % 2 ^ 22 : Int) - 2 ^ 22 else (v % 2 ^ 22 : Int)

/-- Spec wording for claim C8: the decoded battery-monitor current in amps. -/
def specShuntCurrent (d : Nat → Nat) : ℚ :=
  (signExtend22 (specCurrentRaw d) : ℚ) * 0.001

/-- The raw state-of-charge extraction expression of processSmartShunt
(main.cpp:347). -/
def socRawOf (d : Nat → Nat) : Nat := ((d 13 >>> 4) ||| (d 14 <<< 4)) &&& 0x3FF

/-- All-zero abstract cipher (keystream blocks of zero bytes), used to
evaluate the pipeline on concrete inputs. -/
def aesZero : List Nat → Nat → List Nat := fun _ _ => List.replicate 16 0

/-- All-zero memory contents, used for residual and stack parameters. -/
def zeroMem : Nat → Nat := fun _ => 0

/-- Stack residue for the C1 failing input: the uninitialized manCharBuf
bytes happen to hold the Victron vendor id at offsets 0-1 and zeros
elsewhere (so the key-check byte at offset 9 is 0). -/
def residualC1 : Nat → Nat := fun i => if i = 0 then 0xE1 else if i = 1 then 0x02 else 0

/-- Provisioned battery-sense device with all-zero MAC and all-zero key,
matching the C1 failing scenario. -/
def deviceC1 : VictronDevice :=
  ⟨List.replicate 6 0, List.replicate 16 0, .batterySense⟩

/-- Decrypted solar-charger buffer of the spec section 8 scenario, with the
loadCurrentHigh byte 0b11111101 exactly as the spec states it. -/
def dC4spec : Nat → Nat := fun i =>
  [0x03, 0x00, 0xEC, 0x04, 0xF1, 0xFF, 0x78, 0x00, 0x2D, 0x00, 0x32, 0xFD].getD i 0

/-- The same scenario with loadCurrentHigh = 0b11111111, the nearest byte the
code accepts that keeps bit 0 (load-current bit 9) set. -/
def dC4amended : Nat → Nat := fun i =>
  [0x03, 0x00, 0xEC, 0x04, 0xF1, 0xFF, 0x78, 0x00, 0x2D, 0x00, 0x32, 0xFF].getD i 0

/-- Result of the solar decoder on the amended section 8 scenario. -/
def rC4 : Caches := processSolarCharger dC4amended (-60) "SmartSolar" initCaches

/-- Battery-monitor buffer whose raw state of charge is 0x3FF (packedData[5]
= 0xF0, packedData[6] = 0x3F). -/
def dC5bad : Nat → Nat := fun i => if i = 13 then 0xF0 else if i = 14 then 0x3F else 0

/-- Battery-monitor buffer whose raw state of charge is 0x1F4 = 500. -/
def dC5ok : Nat → Nat := fun i => if i = 13 then 0x40 else if i = 14 then 0x1F else 0

/-- Cache state holding a previously published numeric state of charge of
50 percent. -/
def cachesC5 : Caches := { initCaches with shunt := { initCaches.shunt with soc := 50 } }

/-- Provisioned smart-shunt device for the C6 counterexample (all-zero MAC
and key). -/
def deviceC6 : VictronDevice :=
  ⟨List.replicate 6 0, List.replicate 16 0, .smartShunt⟩

/-- An 11-byte manufacturer-data sequence: valid Victron header (vendor id
0x02E1, record type 0x02, key-check 0x00) followed by a single encrypted
payload byte, so the decrypted payload has length 1. -/
def manDataC6 : List Nat :=
  [0xE1, 0x02, 0x10, 0xA4, 0xA3, 0x01, 0x02, 0x00, 0x00, 0x00, 0x55]

/-- Provisioned battery-sense device for the C9 witness. -/
def deviceC9 : VictronDevice :=
  ⟨[1, 2, 3, 4, 5, 6], List.replicate 16 0x4C, .batterySense⟩

/-- A 12-byte manufacturer-data sequence with vendor id 0x02E1, declared
record type 0x05 (neither solar nor battery monitor) and key-check byte
0x4C. -/
def manDataC9 : List Nat :=
  [0xE1, 0x02, 0x10, 0x00, 0x00, 0x00, 0x05, 0x00, 0x00, 0x4C, 0xAA, 0xBB]

/-- Solar buffer for the C3 witness: loadCurrentHigh = 0xFE,
loadCurrentLow = 0x0A. -/
def dC3w : Nat → Nat := fun i => if i = 11 then 0xFE else if i = 10 then 0x0A else 0

/-- Buffer with the solar reserved bits set to the pattern the spec names
(upper 7 bits 0b1111110, here byte 0xFC). -/
def dC3bad : Nat → Nat := fun i => if i = 11 then 0xFC else 0

/-- Battery-monitor buffer for the C8 witness (current field crossing all
three extraction bytes, sign bit set). -/
def dC8w : Nat → Nat :=
  fun i => if i = 8 then 0xAB else if i = 9 then 0xCD else if i = 10 then 0xEF else 0

/-! Helper lemmas. -/

set_option maxRecDepth 8192 in
/-- The solar validity mask test of main.cpp:297-298 is exactly the test that
the upper 7 bits of the byte are all ones. -/
theorem and_fe_iff : ∀ x : Fin 256, (x.val &&& 0xfe = 0xfe ↔ x.val >>> 1 = 0x7f) := by
  decide

/-- Arithmetic form of the three-byte shift-or-mask current extraction of
processSmartShunt (main.cpp:339-341). -/
theorem shiftOrMask_eq (b0 b1 b2 : Nat) (h0 : b0 < 256) (h1 : b1 < 256)
    (h2 : b2 < 256) :
    ((b0 >>> 2) ||| (b1 <<< 6) ||| (b2 <<< 14)) &&& 0x3FFFFF =
      b0 / 4 + 2 ^ 6 * b1 + 2 ^ 14 * b2 := by
  have p6 : (2 : Nat) ^ 6 = 64 := by norm_num
  have p14 : (2 : Nat) ^ 14 = 16384 := by norm_num
  have p22 : (2 : Nat) ^ 22 = 4194304 := by norm_num
  have e0 : b0 >>> 2 = b0 / 4 := by
    rw [Nat.shiftRight_eq_div_pow]
  have e1 : b1 <<< 6 = 2 ^ 6 * b1 := by rw [Nat.shiftLeft_eq]; ring
  have e2 : b2 <<< 14 = 2 ^ 14 * b2 := by rw [Nat.shiftLeft_eq]; ring
  have hlt0 : b0 / 4 < 2 ^ 6 := by rw [p6]; omega
  have or1 : (b0 >>> 2) ||| (b1 <<< 6) = 2 ^ 6 * b1 + b0 / 4 := by
    rw [e0, e1, Nat.or_comm, ← Nat.mul_add_lt_is_or hlt0 b1]
  have hlt1 : 2 ^ 6 * b1 + b0 / 4 < 2 ^ 14 := by rw [p6, p14]; omega
  have or2 : (b0 >>> 2) ||| (b1 <<< 6) ||| (b2 <<< 14) =
      2 ^ 14 * b2 + (2 ^ 6 * b1 + b0 / 4) := by
    rw [or1, e2, Nat.or_comm, ← Nat.mul_add_lt_is_or hlt1 b2]
  have hlt2 : 2 ^ 14 * b2 + (2 ^ 6 * b1 + b0 / 4) < 2 ^ 22 := by
    rw [p6, p14, p22]; omega
  rw [or2, show (0x3FFFFF : Nat) = 2 ^ 22 - 1 from by norm_num,
    Nat.and_pow_two_sub_one_eq_mod, Nat.mod_eq_of_lt hlt2]
  ring

/-- For a 22-bit value, testing bit 21 with a mask is testing 2^21 ≤ v. -/
theorem and_bit21 (v : Nat) (hv : v < 2 ^ 22) : v &&& 0x200000 ≠ 0 ↔ 2 ^ 21 ≤ v := by
  have p21 : (2 : Nat) ^ 21 = 2097152 := by norm_num
  have p22 : (2 : Nat) ^ 22 = 4194304 := by norm_num
  rw [show (0x200000 : Nat) = 2 ^ 21 from by norm_num, Nat.and_two_pow]
  have htb : v.testBit 21 = decide (v / 2 ^ 21 % 2 = 1) := Nat.testBit_to_div_mod
  rw [p21] at htb
  rw [p22] at hv
  rw [p21]
  cases hb : v.testBit 21 with
  | false =>
    rw [hb] at htb
    have hdiv : ¬ v / 2097152 % 2 = 1 := by
      intro hh; rw [hh] at htb; simp at htb
    simp only [Bool.toNat_false, Nat.zero_mul]
    constructor
    · intro hh; exact absurd rfl hh
    · intro hh; exact absurd (by omega) hdiv
  | true =>
    rw [hb] at htb
    have hdiv : v / 2097152 % 2 = 1 := by simpa using htb.symm
    simp only [Bool.toNat_true, Nat.one_mul]
    constructor
    · intro _; omega
    · intro _; omega

/-- The int32 reinterpretation of `v | 0xFFC00000` subtracts 2^22 from a
22-bit value. -/
theorem i32_or_top (v : Nat) (hv : v < 2 ^ 22) :
    i32 (v ||| 0xFFC00000) = (v : Int) - 2 ^ 22 := by
  have hor : v ||| 0xFFC00000 = 2 ^ 22 * 1023 + v := by
    rw [show (0xFFC00000 : Nat) = 2 ^ 22 * 1023 from by norm_num, Nat.or_comm,
      ← Nat.mul_add_lt_is_or hv 1023]
  rw [hor]
  unfold i32
  rw [if_neg (by rw [show (2 : Nat) ^ 22 * 1023 = 4290772992 from by norm_num]; omega)]
  push_cast
  omega

/-- The spec current field in arithmetic form. -/
theorem specCurrentRaw_eq (d : Nat → Nat) (h8 : d 8 < 256) (h9 : d 9 < 256)
    (h10 : d 10 < 256) :
    specCurrentRaw d = d 8 / 4 + 2 ^ 6 * d 9 + 2 ^ 14 * d 10 := by
  unfold specCurrentRaw packedLE56
  norm_num
  omega

/-! Claim theorems. -/

/-- C1: the claim states that a manufacturer-data sequence shorter than 8
bytes produces no frame and no Reading and that header fields are read only
when fully present.  The code has no length check: this theorem evaluates the
pipeline on a 0-byte advertisement whose uninitialized buffer residue carries
the Victron vendor id, showing the vendor id is read and accepted, the cipher
length int becomes the size_t value 4294967286 (manDataSize - 10 = -10), and
a battery-sense Reading is published — contradicting the claim. -/
theorem C1_code_bug :
    ([] : List Nat).length < 8
    ∧ vendorID (manCharBuf [] residualC1) = 0x02E1
    ∧ sizeT (((min ([] : List Nat).length 31 : Nat) : Int) - 10) = 4294967286
    ∧ initCaches.sense.valid = false
    ∧ (onResult [deviceC1] aesZero true true [] residualC1 zeroMem
        (List.replicate 6 0) "" 0 initCaches).sense.valid = true := by
  refine ⟨by decide, by decide, by decide, by decide, ?_⟩
  rfl

/-- C2: the claim states the decryptor processes exactly the payload length
(1 to 21 bytes) and writes only within the output buffer; but both inputData
and outputData are 16-byte buffers, and an accepted frame of 27
manufacturer-data bytes yields dataSize 17, so the cipher writes 17 bytes
(one past the 16-byte output buffer) and its 17th input byte comes from
uninitialized stack memory rather than the payload. -/
theorem C2_code_bug :
    (decryptVictronData aesZero true zeroMem zeroMem 0 17).map List.length = some 17
    ∧ outputDataSize < 17 ∧ inputDataSize < 17
    ∧ ((min (27 : Nat) 31 : Nat) : Int) - 10 = 17 ∧ (17 : Nat) ≤ 21
    ∧ ((decryptVictronData aesZero true (fun _ => 9) zeroMem 0 17).getD []).getD 15 0 = 9
    ∧ ((decryptVictronData aesZero true (fun _ => 9) zeroMem 0 17).getD []).getD 16 0 = 0 := by
  decide

/-- C3 counterexample: a byte whose upper 7 bits are exactly 0b1111110 (the
pattern the claim names) is rejected by the code, which requires the masked
byte to equal 0xFE, i.e. upper 7 bits all ones. -/
theorem C3_counterexample :
    upper7 (dC3bad 11) = 0b1111110
    ∧ processSolarCharger dC3bad 0 "" initCaches = initCaches
    ∧ initCaches.solar.valid = false := by
  decide

/-- C3 amended: the solar decoder produces a Reading exactly when the upper 7
bits of loadCurrentHighWithFlags are 0b1111111; any other value leaves the
caches unchanged; with byte 0b11111110 and loadCurrentLow 0x0A the decoded
load current is 1.0 A. -/
theorem C3_theorem (d : Nat → Nat) (hb : d 11 < 256) (rssi : Int) (name : String)
    (g : Caches) :
    (upper7 (d 11) ≠ 0b1111111 → processSolarCharger d rssi name g = g)
    ∧ (upper7 (d 11) = 0b1111111 →
        (processSolarCharger d rssi name g).solar.valid = true)
    ∧ (d 11 = 0b11111110 → d 10 = 0x0A →
        (processSolarCharger d rssi name g).solar.loadCurrent = 1) := by
  have hiff : d 11 &&& 0xfe = 0xfe ↔ d 11 >>> 1 = 0x7f := and_fe_iff ⟨d 11, hb⟩
  refine ⟨?_, ?_, ?_⟩
  · intro hne
    have hc : d 11 &&& 0xfe ≠ 0xfe := fun hc => hne (hiff.mp hc)
    unfold processSolarCharger
    simp [hc]
  · intro he
    have hc : d 11 &&& 0xfe = 0xfe := hiff.mpr he
    unfold processSolarCharger
    simp [hc]
  · intro h11 h10
    unfold processSolarCharger
    rw [h11, h10]
    norm_num

/-- C3 witness: the amended theorem applied to the concrete buffer with
loadCurrentHigh 0xFE and loadCurrentLow 0x0A. -/
theorem C3_theorem_witness :
    upper7 (dC3w 11) = 0b1111111
    ∧ (processSolarCharger dC3w 0 "" initCaches).solar.valid = true
    ∧ (processSolarCharger dC3w 0 "" initCaches).solar.loadCurrent = 1 :=
  ⟨by decide,
   (C3_theorem dC3w (by decide) 0 "" initCaches).2.1 (by decide),
   (C3_theorem dC3w (by decide) 0 "" initCaches).2.2 (by decide) (by decide)⟩

/-- C4 counterexample: the spec section 8 record has loadCurrentHigh
0b11111101, whose masked value 0xFC fails the code validity check, so the
decoder discards the packet and produces no Reading. -/
theorem C4_counterexample :
    dC4spec 11 = 0b11111101
    ∧ processSolarCharger dC4spec (-60) "SmartSolar" initCaches = initCaches
    ∧ initCaches.solar.valid = false := by
  decide

/-- C4 amended: the same record with loadCurrentHigh 0b11111111 (the nearest
accepted byte keeping load-current bit 9 set) yields a Reading with charge
state 3 (" bulk"), 12.60 V, -1.5 A, 1200 Wh, 45 W and load current
((1 shl 9) or 0x32) times 0.1 A. -/
theorem C4_theorem :
    rC4.solar.valid = true
    ∧ rC4.solar.chargeState = 3
    ∧ chargeStateNames.getD 3 "" = " bulk"
    ∧ rC4.solar.batteryVoltage = 12.60
    ∧ rC4.solar.batteryCurrent = -1.5
    ∧ rC4.solar.todayYield = 1200
    ∧ rC4.solar.inputPower = 45
    ∧ rC4.solar.loadCurrent = (((0b1 <<< 9) ||| 0x32 : Nat) : ℚ) * 0.1
    ∧ dC4amended 11 = 0b11111111 := by
  have e0 : dC4amended 0 = 0x03 := by decide
  have e1 : dC4amended 1 = 0x00 := by decide
  have e2 : dC4amended 2 = 0xEC := by decide
  have e3 : dC4amended 3 = 0x04 := by decide
  have e4 : dC4amended 4 = 0xF1 := by decide
  have e5 : dC4amended 5 = 0xFF := by decide
  have e6 : dC4amended 6 = 0x78 := by decide
  have e7 : dC4amended 7 = 0x00 := by decide
  have e8 : dC4amended 8 = 0x2D := by decide
  have e9 : dC4amended 9 = 0x00 := by decide
  have e10 : dC4amended 10 = 0x32 := by decide
  have e11 : dC4amended 11 = 0xFF := by decide
  have hand : (255 : Nat) &&& 254 = 254 := by decide
  refine ⟨?_, ?_, by decide, ?_, ?_, ?_, ?_, ?_, by decide⟩ <;>
    norm_num [rC4, processSolarCharger, e0, e1, e2, e3, e4, e5, e6, e7, e8, e9,
      e10, e11, hand, i16, le16, initCaches]

/-- C5 counterexample: a packet whose raw state of charge is 0x3FF still
publishes a valid shunt Reading carrying the previous numeric percentage
(here 50), not an unavailable marker. -/
theorem C5_counterexample :
    socRawOf dC5bad = 0x3FF
    ∧ (processSmartShunt dC5bad 0 "" cachesC5).shunt.valid = true
    ∧ (processSmartShunt dC5bad 0 "" cachesC5).shunt.soc = 50 := by
  decide

/-- C5 amended: raw state of charge 0x3FF leaves the cached soc value
unchanged (0x3FF * 0.1 = 102.3 is never published), while raw 0x1F4 = 500
yields exactly 50.0 percent. -/
theorem C5_theorem (d : Nat → Nat) (rssi : Int) (name : String) (g : Caches) :
    (socRawOf d = 0x3FF →
      (processSmartShunt d rssi name g).shunt.valid = true
      ∧ (processSmartShunt d rssi name g).shunt.soc = g.shunt.soc)
    ∧ (socRawOf d = 0x1F4 →
      (processSmartShunt d rssi name g).shunt.soc = 50) := by
  unfold socRawOf processSmartShunt
  constructor
  · intro h
    refine ⟨by simp [h], by simp [h]⟩
  · intro h
    simp [h]
    norm_num

/-- C5 witness: the amended theorem applied to a 0x3FF packet over a cache
holding 50 percent, and to a 0x1F4 packet. -/
theorem C5_theorem_witness :
    (processSmartShunt dC5bad 0 "" cachesC5).shunt.soc = cachesC5.shunt.soc
    ∧ (processSmartShunt dC5ok 0 "" initCaches).shunt.soc = 50 :=
  ⟨((C5_theorem dC5bad 0 "" cachesC5).1 (by decide)).2,
   (C5_theorem dC5ok 0 "" initCaches).2 (by decide)⟩

/-- C6 counterexample: an accepted 11-byte advertisement leaves a decrypted
payload of exactly 1 byte — shorter than the 15-byte battery-monitor layout —
yet the shunt decoder still publishes a Reading instead of a ShortPayload
error. -/
theorem C6_counterexample :
    manDataC6.length = 11
    ∧ (decryptVictronData aesZero true
        (victronEncryptedData (manCharBuf manDataC6 zeroMem)) zeroMem 0
        ((11 : Int) - 10)).map List.length = some 1
    ∧ (onResult [deviceC6] aesZero true true manDataC6 zeroMem zeroMem
        (List.replicate 6 0) "" 0 initCaches).shunt.valid = true := by
  decide

/-- C6 amended: the record decoders perform no length check — every decoder
input, however short its decrypted payload, produces a Reading (decoded from
the zero-initialized remainder of the 16-byte decrypt buffer) — but each
decoder reads the buffer only at offsets below 16, so two buffers agreeing on
those offsets decode identically and no read leaves the 16-byte buffer. -/
theorem C6_theorem (d dp : Nat → Nat) (rssi : Int) (name : String) (g : Caches)
    (h : ∀ i, i < 16 → d i = dp i) :
    processSolarCharger d rssi name g = processSolarCharger dp rssi name g
    ∧ processSmartShunt d rssi name g = processSmartShunt dp rssi name g
    ∧ processBatterySense d rssi name g = processBatterySense dp rssi name g
    ∧ (processSmartShunt d rssi name g).shunt.valid = true
    ∧ (processBatterySense d rssi name g).sense.valid = true := by
  have e0 := h 0 (by omega)
  have e1 := h 1 (by omega)
  have e2 := h 2 (by omega)
  have e3 := h 3 (by omega)
  have e4 := h 4 (by omega)
  have e5 := h 5 (by omega)
  have e6 := h 6 (by omega)
  have e7 := h 7 (by omega)
  have e8 := h 8 (by omega)
  have e9 := h 9 (by omega)
  have e10 := h 10 (by omega)
  have e11 := h 11 (by omega)
  have e13 := h 13 (by omega)
  have e14 := h 14 (by omega)
  refine ⟨?_, ?_, ?_, rfl, rfl⟩
  · unfold processSolarCharger
    simp only [e0, e1, e2, e3, e4, e5, e6, e7, e8, e9, e10, e11]
  · unfold processSmartShunt
    simp only [e0, e1, e2, e3, e8, e9, e10, e13, e14]
  · unfold processBatterySense
    simp only [e2, e3, e6, e7, e8]

/-- C6 witness: the amended theorem applied to two identical all-zero
buffers. -/
theorem C6_theorem_witness :
    processSmartShunt zeroMem 0 "" initCaches = processSmartShunt zeroMem 0 "" initCaches
    ∧ (processSmartShunt zeroMem 0 "" initCaches).shunt.valid = true :=
  ⟨(C6_theorem zeroMem zeroMem 0 "" initCaches (fun _ _ => rfl)).2.1,
   (C6_theorem zeroMem zeroMem 0 "" initCaches (fun _ _ => rfl)).2.2.2.1⟩

/-- C7: an advertisement whose manufacturer data carries a little-endian
16-bit vendor id at offset 0 different from 0x02E1 leaves the whole modelled
state (all three reading caches and the packetReceived flag) unchanged. -/
theorem C7_theorem (devices : List VictronDevice) (E : List Nat → Nat → List Nat)
    (setkeyOk : Bool) (manData : List Nat) (residual stack : Nat → Nat)
    (mac : List Nat) (name : String) (rssi : Int) (g : Caches)
    (hlen : 2 ≤ manData.length)
    (hv : le16 (manData.getD 0 0) (manData.getD 1 0) ≠ 0x02E1) :
    onResult devices E setkeyOk true manData residual stack mac name rssi g = g := by
  have hvbuf : vendorID (manCharBuf manData residual) ≠ 0x02E1 := by
    unfold vendorID manCharBuf
    rw [if_pos (by omega), if_pos (by omega)]
    exact hv
  unfold onResult
  simp [hvbuf]

/-- C7 witness: the theorem applied to a two-byte sequence of zeros. -/
theorem C7_theorem_witness :
    onResult [] aesZero true true [0, 0] zeroMem zeroMem [] "" 0 initCaches
      = initCaches :=
  C7_theorem [] aesZero true [0, 0] zeroMem zeroMem [] "" 0 initCaches
    (by decide) (by decide)

/-- C8: the shunt battery current published by the decoder equals the spec
value: the 22-bit field at bits 2-23 of the packed region read as a
little-endian 56-bit integer, sign-extended from bit 21, times 0.001 A. -/
theorem C8_theorem (d : Nat → Nat) (h8 : d 8 < 256) (h9 : d 9 < 256)
    (h10 : d 10 < 256) (rssi : Int) (name : String) (g : Caches) :
    (processSmartShunt d rssi name g).shunt.batteryCurrent = specShuntCurrent d := by
  have hA := shiftOrMask_eq (d 8) (d 9) (d 10) h8 h9 h10
  set A := d 8 / 4 + 2 ^ 6 * d 9 + 2 ^ 14 * d 10 with hAdef
  have hAlt : A < 2 ^ 22 := by
    rw [hAdef, show (2 : Nat) ^ 6 = 64 from by norm_num,
      show (2 : Nat) ^ 14 = 16384 from by norm_num,
      show (2 : Nat) ^ 22 = 4194304 from by norm_num]
    omega
  have hmodInt : (A : Int) % 2 ^ 22 = (A : Int) :=
    Int.emod_eq_of_lt (by positivity) (by exact_mod_cast hAlt)
  have hspec : signExtend22 (specCurrentRaw d) =
      (if A &&& 0x200000 ≠ 0 then i32 (A ||| 0xFFC00000) else (A : Int)) := by
    rw [specCurrentRaw_eq d h8 h9 h10, ← hAdef]
    unfold signExtend22
    rw [Nat.mod_eq_of_lt hAlt, hmodInt]
    by_cases hbit : 2 ^ 21 ≤ A
    · rw [if_pos hbit, if_pos ((and_bit21 A hAlt).mpr hbit), i32_or_top A hAlt]
    · rw [if_neg hbit, if_neg (fun hh => hbit ((and_bit21 A hAlt).mp hh))]
  calc (processSmartShunt d rssi name g).shunt.batteryCurrent
      = (((if (((d 8 >>> 2) ||| (d 9 <<< 6) ||| (d 10 <<< 14)) &&& 0x3FFFFF) &&& 0x200000 ≠ 0
            then i32 ((((d 8 >>> 2) ||| (d 9 <<< 6) ||| (d 10 <<< 14)) &&& 0x3FFFFF) ||| 0xFFC00000)
            else ((((d 8 >>> 2) ||| (d 9 <<< 6) ||| (d 10 <<< 14)) &&& 0x3FFFFF : Nat) : Int)) : Int) : ℚ)
          * 0.001 := rfl
    _ = ((signExtend22 (specCurrentRaw d) : Int) : ℚ) * 0.001 := by rw [hA, ← hspec]
    _ = specShuntCurrent d := rfl

/-- C8 witness: the theorem applied to the concrete packed bytes 0xAB, 0xCD,
0xEF (a negative current). -/
theorem C8_theorem_witness :
    (processSmartShunt dC8w 0 "" initCaches).shunt.batteryCurrent
      = specShuntCurrent dC8w :=
  C8_theorem dC8w (by decide) (by decide) (by decide) 0 "" initCaches

/-- C9: with the address resolved to a provisioned device, a solar-configured
device drops any declared record type other than 0x01 unchanged, a
shunt-configured device drops any type other than 0x02, while a
battery-sense-configured device (given the earlier stages pass) publishes a
Reading whatever the declared record type is. -/
theorem C9_theorem (devices : List VictronDevice) (E : List Nat → Nat → List Nat)
    (setkeyOk : Bool) (manData : List Nat) (residual stack : Nat → Nat)
    (mac : List Nat) (name : String) (rssi : Int) (g : Caches) (i : Nat)
    (hfind : findDeviceByMac devices mac = some i) :
    ((devices.getD i default).deviceType = VictronDeviceType.solarCharger →
      victronRecordType (manCharBuf manData residual) ≠ 0x01 →
      onResult devices E setkeyOk true manData residual stack mac name rssi g = g)
    ∧ ((devices.getD i default).deviceType = VictronDeviceType.smartShunt →
      victronRecordType (manCharBuf manData residual) ≠ 0x02 →
      onResult devices E setkeyOk true manData residual stack mac name rssi g = g)
    ∧ ((devices.getD i default).deviceType = VictronDeviceType.batterySense →
      setkeyOk = true →
      vendorID (manCharBuf manData residual) = 0x02E1 →
      encryptKeyMatch (manCharBuf manData residual)
          = (devices.getD i default).byteKey.getD 0 0 →
      (onResult devices E setkeyOk true manData residual stack mac name rssi g).sense.valid
        = true) := by
  refine ⟨?_, ?_, ?_⟩
  · intro htype hrt
    rw [List.getD_eq_getElem?_getD] at htype
    unfold onResult
    simp only [hfind]
    by_cases hv : vendorID (manCharBuf manData residual) = 0x02E1
    · by_cases hk : encryptKeyMatch (manCharBuf manData residual)
          = (devices[i]?.getD default).byteKey[0]?.getD 0
      · cases setkeyOk <;> simp [decryptVictronData, hv, hk, htype, hrt]
      · simp [hv, hk]
    · simp [hv]
  · intro htype hrt
    rw [List.getD_eq_getElem?_getD] at htype
    unfold onResult
    simp only [hfind]
    by_cases hv : vendorID (manCharBuf manData residual) = 0x02E1
    · by_cases hk : encryptKeyMatch (manCharBuf manData residual)
          = (devices[i]?.getD default).byteKey[0]?.getD 0
      · cases setkeyOk <;> simp [decryptVictronData, hv, hk, htype, hrt]
      · simp [hv, hk]
    · simp [hv]
  · intro htype hsk hv hk
    subst hsk
    rw [List.getD_eq_getElem?_getD] at htype
    rw [List.getD_eq_getElem?_getD, List.getD_eq_getElem?_getD] at hk
    unfold onResult
    simp [hfind, hv, hk, htype, decryptVictronData, processBatterySense]

/-- C9 witness: a battery-sense device receiving declared record type 0x05
(matching neither expected type) still publishes a temperature Reading. -/
theorem C9_theorem_witness :
    (onResult [deviceC9] aesZero true true manDataC9 zeroMem zeroMem
      [1, 2, 3, 4, 5, 6] "" 0 initCaches).sense.valid = true :=
  (C9_theorem [deviceC9] aesZero true manDataC9 zeroMem zeroMem
      [1, 2, 3, 4, 5, 6] "" 0 initCaches 0 (by decide)).2.2
    (by decide) rfl (by decide) (by decide)

/-- C10: each record decoder writes only the cache record of its own device
kind — the solar decoder leaves the shunt and battery-sense records (valid
flags included) unchanged, and likewise for the other two decoders. -/
theorem C10_theorem (d : Nat → Nat) (rssi : Int) (name : String) (g : Caches) :
    (processSolarCharger d rssi name g).shunt = g.shunt
    ∧ (processSolarCharger d rssi name g).sense = g.sense
    ∧ (processSmartShunt d rssi name g).solar = g.solar
    ∧ (processSmartShunt d rssi name g).sense = g.sense
    ∧ (processBatterySense d rssi name g).solar = g.solar
    ∧ (processBatterySense d rssi name g).shunt = g.shunt := by
  refine ⟨?_, ?_, rfl, rfl, rfl, rfl⟩ <;>
    by_cases hc : d 11 &&& 0xfe = 0xfe <;> simp [processSolarCharger, hc]

end Victron
